import Mathlib

/-!
Verification of the capture-process-restore pipeline of the ocr-paste utility.

The development shallowly embeds the two source files (src/main.rs and
src/transcribe.rs).  External effects (subprocess launches, the transcription
network call, clipboard writes, paste simulation, temp-file creation) are
modelled by an oracle `Env` fixing each interaction's outcome, and every
pipeline function additionally returns the ordered list of external actions
(`Event`) it performed, so that routing, ordering and "no subprocess / no
network call" properties can be stated about the trace.
-/

namespace OcrPaste

/-- A filesystem path, as the UTF-8 text the Rust code manipulates. -/
abbrev Path := String

/-- Mirrors `enum ClipboardContent` (main.rs 74-78): raw bitmap bytes or a file list. -/
inductive ClipboardContent
  | Bitmap (data : List Nat)
  | FileList (files : List String)
  deriving DecidableEq

/-- The CLI arguments read by `process_clipboard_and_paste` (main.rs `struct Args`,
50-71); fields the pipeline never reads (trigger key, beeps) are omitted. -/
structure Args where
  lang : String
  tesseract_cmd : String
  tessdata_path : Option String
  tesseract_args : List String
  openai_api_key : Option String
  deriving DecidableEq

/-- main.rs 34-36. -/
def AUDIO_EXTENSIONS : List String :=
  ["wav", "mp3", "m4a", "ogg", "flac", "aac", "wma", "opus", "aiff", "aif"]

/-- main.rs 37-39. -/
def VIDEO_EXTENSIONS : List String :=
  ["mp4", "mkv", "mov", "avi", "wmv", "flv", "webm", "mpeg", "mpg", "m4v", "3gp"]

/-- ASCII lowercasing.  main.rs 241 uses `str::to_lowercase` and transcribe.rs 16 uses
`to_ascii_lowercase`; the two agree on ASCII text, and every extension either is
compared against the ASCII allow-lists or against "mp3", so one ASCII model serves
both call sites. -/
def asciiLower (s : String) : String :=
  String.mk (s.toList.map fun c =>
    if 65 ≤ c.toNat ∧ c.toNat ≤ 90 then Char.ofNat (c.toNat + 32) else c)

/-- Rust `Path::file_name`: the component after the last path separator (Windows
paths accept both separators). -/
def fileNamePart (p : Path) : List Char :=
  (p.toList.reverse.takeWhile fun c => c ≠ '/' ∧ c ≠ '\\').reverse

/-- Rust `Path::extension`: the text after the last dot of the file name, or `none`
when the name has no dot or its only dot is the leading character. -/
def extensionOf (p : Path) : Option String :=
  let name := fileNamePart p
  let afterRev := name.reverse.takeWhile fun c => c ≠ '.'
  if afterRev.length = name.length then none
  else if afterRev.length + 1 = name.length then none
  else some (String.mk afterRev.reverse)

/-- main.rs 238-242: the extension, lowercased, defaulting to the empty string. -/
def extensionLower (p : Path) : String :=
  ((extensionOf p).map asciiLower).getD ""

/-- The Unicode White_Space property, which is what Rust `str::trim` strips. -/
def isRustWhitespace (c : Char) : Bool :=
  let n := c.toNat
  decide ((9 ≤ n ∧ n ≤ 13) ∨ n = 32 ∨ n = 133 ∨ n = 160 ∨ n = 5760 ∨
    (8192 ≤ n ∧ n ≤ 8202) ∨ n = 8232 ∨ n = 8233 ∨ n = 8239 ∨ n = 8287 ∨ n = 12288)

/-- Rust `str::trim`: strip leading and trailing whitespace characters. -/
def rustTrim (s : String) : String :=
  String.mk (((s.toList.dropWhile isRustWhitespace).reverse.dropWhile
    isRustWhitespace).reverse)

/-- Strict UTF-8 decoding of a byte sequence into characters, as Rust
`String::from_utf8` validates it: continuation bytes must be 80..BF, overlong
encodings, surrogate code points and values above 10FFFF are rejected. -/
def utf8DecodeAux : List Nat → Option (List Char)
  | [] => some []
  | b :: bs =>
    if b ≤ 0x7F then
      (utf8DecodeAux bs).map fun cs => Char.ofNat b :: cs
    else if b < 0xC2 then none
    else if b ≤ 0xDF then
      match bs with
      | b1 :: bs1 =>
        if 0x80 ≤ b1 ∧ b1 ≤ 0xBF then
          (utf8DecodeAux bs1).map fun cs =>
            Char.ofNat ((b - 0xC0) * 64 + (b1 - 0x80)) :: cs
        else none
      | [] => none
    else if b ≤ 0xEF then
      match bs with
      | b1 :: b2 :: bs2 =>
        let lo1 := if b = 0xE0 then 0xA0 else 0x80
        let hi1 := if b = 0xED then 0x9F else 0xBF
        if (lo1 ≤ b1 ∧ b1 ≤ hi1) ∧ (0x80 ≤ b2 ∧ b2 ≤ 0xBF) then
          (utf8DecodeAux bs2).map fun cs =>
            Char.ofNat ((b - 0xE0) * 4096 + (b1 - 0x80) * 64 + (b2 - 0x80)) :: cs
        else none
      | _ => none
    else if b ≤ 0xF4 then
      match bs with
      | b1 :: b2 :: b3 :: bs3 =>
        let lo1 := if b = 0xF0 then 0x90 else 0x80
        let hi1 := if b = 0xF4 then 0x8F else 0xBF
        if (lo1 ≤ b1 ∧ b1 ≤ hi1) ∧ (0x80 ≤ b2 ∧ b2 ≤ 0xBF) ∧ (0x80 ≤ b3 ∧ b3 ≤ 0xBF) then
          (utf8DecodeAux bs3).map fun cs =>
            Char.ofNat ((b - 0xF0) * 262144 + (b1 - 0x80) * 4096 +
              (b2 - 0x80) * 64 + (b3 - 0x80)) :: cs
        else none
      | _ => none
    else none

/-- Rust `String::from_utf8`: the decoded string, or `none` on invalid UTF-8. -/
def from_utf8 (bytes : List Nat) : Option String :=
  (utf8DecodeAux bytes).map String.mk

/-- The observable external actions a cycle performs, in order.  An entry records
that the corresponding call was made (for processes and the network request, that
the launch was attempted), independently of its outcome. -/
inductive Event
  | createTempFile (pre suf : String)
  | createTempDir
  | runProcess (cmd : String) (cargs : List String)
  | networkTranscribe (file : Path)
  | writeClipText (text : String)
  | pasteSim
  | restoreClip (content : ClipboardContent)
  deriving DecidableEq

/-- The two classes of `std::io::Error` the source distinguishes when a process
fails to launch (transcribe.rs 75). -/
inductive IoKind
  | notFound
  | otherErr
  deriving DecidableEq

/-- Outcome of a `Command::output()` call: the launch failed with an io error
(shown by its message), or the process ran and exited.  Rust `status.success()`
is `code = 0`; stderr is carried as the text `from_utf8_lossy` yields. -/
inductive ExecOutcome
  | launchFailed (kind : IoKind) (msg : String)
  | exited (code : Nat) (stdout : List Nat) (stderrText : String)
  deriving DecidableEq

/-- The distinct anyhow error constructions of the source, one constructor per
creation site; `context` mirrors `.context`/`.with_context` wrapping and `source`
stands for an error raised by a library or the OS, shown by its message. -/
inductive Err
  | context (msg : String) (e : Err)
  | source (msg : String)
  | ffmpegExtractFailed (code : Nat) (stderrText : String)  -- main.rs 284
  | unsupportedFileType (ext : String)                      -- main.rs 294
  | apiKeyMissing                                           -- main.rs 302
  | unsupportedFileCount (n : Nat)                          -- main.rs 330
  | ffmpegNotFound                                          -- transcribe.rs 77
  | ffmpegExecError (msg : String)                          -- transcribe.rs 81
  | ffmpegConvertFailed (code : Nat) (stderrText : String)  -- transcribe.rs 65
  | fileTooLarge (len : Nat)                                -- transcribe.rs 108
  | fileEmpty                                               -- transcribe.rs 114
  | tesseractFailed (code : Nat) (stderrText : String)      -- main.rs 383
  | invalidUtf8                                             -- main.rs 389-390
  | clipOpenSetError (msg : String)                         -- main.rs 217-218
  | clipSetError (msg : String)                             -- main.rs 220-221
  | restoreOpenError (msg : String)                         -- main.rs 194-195
  | restoreBitmapError (msg : String)                       -- main.rs 200-202
  | restoreFileListError (msg : String)                     -- main.rs 207-209
  | simulateCtrlVError (msg : String)                       -- main.rs 414
  deriving DecidableEq

/-- The state of everything outside the program, fixed before a cycle runs: the
outcome each external interaction will have if the cycle performs it.  Error
payloads are the messages of the underlying library/OS errors. -/
structure Env where
  tempAudioFile : Except String Path      -- main.rs 256-260, tempfile for extracted audio
  tempImageFile : Except String Path      -- main.rs 338-342, tempfile for the OCR png
  tempDir : Except String Path            -- transcribe.rs 94-95, tempfile::tempdir()
  sysTimeMillis : Except String Nat       -- transcribe.rs 27-29, time since UNIX_EPOCH
  pid : Nat                               -- transcribe.rs 30, std::process::id()
  ffmpegExtract : ExecOutcome             -- main.rs 269-280
  ffmpegConvert : ExecOutcome             -- transcribe.rs 40-59
  fileSize : Path → Except String Nat     -- transcribe.rs 104-105, fs::metadata(..).len()
  openai : Except String String           -- transcribe.rs 129-133, the network request
  imageDecode : Except String Unit        -- main.rs 347-348, image::load_from_memory
  imageSave : Except String Unit          -- main.rs 353-359, img.save_with_format
  tesseract : ExecOutcome                 -- main.rs 374-379
  clipOpenForSet : Except String Unit     -- main.rs 217-218
  clipSetText : Except String Unit        -- main.rs 220-221
  ctrlV : Except String Unit              -- main.rs 438-449, first failing simulate call
  clipOpenForRestore : Except String Unit -- main.rs 194-195
  clipWriteRestore : Except String Unit   -- main.rs 200-209, write_clipboard

/-- The ffmpeg conversion invocation of transcribe.rs 40-59:
`-i input -vn -ar 44100 -ac 2 -b:a 192k -f mp3 out`. -/
def convArgs (input out : Path) : List String :=
  ["-i", input, "-vn", "-ar", "44100", "-ac", "2", "-b:a", "192k", "-f", "mp3", out]

/-- The ffmpeg extraction invocation of main.rs 269-277: `-i input -vn -q:a 0 -y out`. -/
def extractArgs (input out : Path) : List String :=
  ["-i", input, "-vn", "-q:a", "0", "-y", out]

/-- The converted-mp3 path built at transcribe.rs 25-31 from the temp dir, the
process id and the timestamp. -/
def mp3OutPath (tmp : Path) (pid ts : Nat) : Path :=
  tmp ++ "/transcribe_temp_" ++ toString pid ++ "_" ++ toString ts ++ ".mp3"

/-- The Tesseract CLI argument list of main.rs 363-372: the input image path, the
literal `stdout`, `-l lang`, the optional `--tessdata-dir dir`, then the
passthrough extra arguments in order. -/
def tesseractCliArgs (imgPath : Path) (args : Args) : List String :=
  [imgPath, "stdout", "-l", args.lang] ++
  (match args.tessdata_path with
   | some tessdata => ["--tessdata-dir", tessdata]
   | none => []) ++
  args.tesseract_args

/-- transcribe.rs 15-85, `ensure_mp3`: an input whose (lowercased) extension is
already mp3 is returned unchanged and no process runs; otherwise ffmpeg converts
it into a fresh mp3 under `temp_dir_path`, with a dedicated error when the tool
is absent (io kind NotFound), a generic execute error otherwise, and a
conversion-failed error carrying stderr on a non-zero exit. -/
def ensure_mp3 (input : Path) (temp_dir_path : Path) (env : Env) :
    Except Err Path × List Event :=
  if extensionLower input = "mp3" then
    (.ok input, [])
  else
    match env.sysTimeMillis with
    | .error m => (.error (.source m), [])
    | .ok ts =>
      let output_mp3_path := mp3OutPath temp_dir_path env.pid ts
      let ev := Event.runProcess "ffmpeg" (convArgs input output_mp3_path)
      match env.ffmpegConvert with
      | .exited code _ stderrText =>
        if code ≠ 0 then (.error (.ffmpegConvertFailed code stderrText), [ev])
        else (.ok output_mp3_path, [ev])
      | .launchFailed kind msg =>
        if kind = .notFound then (.error .ffmpegNotFound, [ev])
        else (.error (.ffmpegExecError msg), [ev])

/-- transcribe.rs 87-140, `transcribe`: create a temp dir, run `ensure_mp3`, then
guard the size of the resulting mp3 (reject above 25 MiB, reject empty) before
issuing the network request.  Building the request struct (transcribe.rs 119-124)
cannot fail for a well-formed path and is not modelled as fallible. -/
def transcribe (input_audio_path : Path) (env : Env) :
    Except Err String × List Event :=
  match env.tempDir with
  | .error m =>
    (.error (.context "Failed to create temporary directory for audio processing"
      (.source m)), [])
  | .ok tmp =>
    let ev0 := Event.createTempDir
    match ensure_mp3 input_audio_path tmp env with
    | (.error e, evs) =>
      (.error (.context "Failed to prepare MP3 file for transcription" e),
       ev0 :: evs)
    | (.ok input_mp3_path, evs) =>
      match env.fileSize input_mp3_path with
      | .error m =>
        (.error (.context "Failed to get metadata for audio file" (.source m)),
         ev0 :: evs)
      | .ok len =>
        if len > 25 * 1024 * 1024 then
          (.error (.fileTooLarge len), ev0 :: evs)
        else if len = 0 then
          (.error .fileEmpty, ev0 :: evs)
        else
          let ev1 := Event.networkTranscribe input_mp3_path
          match env.openai with
          | .error m =>
            (.error (.context "OpenAI API request for transcription failed"
              (.source m)), ev0 :: evs ++ [ev1])
          | .ok text => (.ok text, ev0 :: evs ++ [ev1])

/-- main.rs 193-214, `restore_clipboard`: open the clipboard, then write the
payload back in its captured format. -/
def restore_clipboard (content : ClipboardContent) (env : Env) : Except Err Unit :=
  match env.clipOpenForRestore with
  | .error m => .error (.restoreOpenError m)
  | .ok _ =>
    match content, env.clipWriteRestore with
    | .Bitmap _, .error m => .error (.restoreBitmapError m)
    | .FileList _, .error m => .error (.restoreFileListError m)
    | _, .ok _ => .ok ()

/-- main.rs 216-223, `set_clipboard_string_helper`; the text itself does not
influence success. -/
def set_clipboard_string_helper (_text : String) (env : Env) : Except Err Unit :=
  match env.clipOpenForSet with
  | .error m => .error (.clipOpenSetError m)
  | .ok _ =>
    match env.clipSetText with
    | .error m => .error (.clipSetError m)
    | .ok _ => .ok ()

/-- main.rs 438-449, `send_ctrl_v`: four simulate calls with small delays; the
oracle provides the first failure, if any, as a `SimulateError` message. -/
def send_ctrl_v (env : Env) : Except String Unit :=
  env.ctrlV

/-- Equality of `Except` values is decidable componentwise. -/
instance instDecEqExcept {ε α : Type} [DecidableEq ε] [DecidableEq α] :
    DecidableEq (Except ε α)
  | .error a, .error b =>
    if h : a = b then isTrue (by rw [h])
    else isFalse fun hc => h (by injection hc)
  | .error _, .ok _ => isFalse Except.noConfusion
  | .ok _, .error _ => isFalse Except.noConfusion
  | .ok a, .ok b =>
    if h : a = b then isTrue (by rw [h])
    else isFalse fun hc => h (by injection hc)

/-- How the big processing `match` of main.rs 234-393 finishes.  In the source it
is a match expression assigned to `processed_text_result`, but `?` and `return`
inside it exit the whole enclosing function, bypassing the result-handling block
(and with it the restore calls) at main.rs 396-433; only values produced as the
expression itself fall through to that block.  `earlyReturn` records the former,
`result` the latter. -/
inductive StepOut
  | earlyReturn (e : Err)
  | result (r : Except Err String)
  deriving DecidableEq

/-- main.rs 300-328: the credential check followed by the transcription call,
shared by the direct-audio route and the extracted-audio route; `evs0` is the
trace accumulated before this point.  The missing-key error propagates with `?`
(main.rs 301-303), so it is an early function exit; transcription errors are
wrapped with the failure context and fall through as the expression value.
The start/tick/failure sounds around the call have no observable effect on the
pipeline and are not modelled. -/
def transcriptionCall (audio_path_to_transcribe : Path) (evs0 : List Event)
    (args : Args) (env : Env) : StepOut × List Event :=
  match args.openai_api_key with
  | none => (.earlyReturn .apiKeyMissing, evs0)
  | some _ =>
    match transcribe audio_path_to_transcribe env with
    | (.ok text, evs) => (.result (.ok text), evs0 ++ evs)
    | (.error e, evs) =>
      (.result (.error (.context
        ("Audio transcription failed for: " ++ audio_path_to_transcribe) e)),
       evs0 ++ evs)

/-- main.rs 234-393: the processing step.  A single file is routed by its
lowercased extension: audio allow-list → transcription directly; video
allow-list → temp file, ffmpeg extraction (`-i input -vn -q:a 0 -y out`), then
transcription of the extracted file; any other extension → unsupported-type
error via `return` (early exit).  Zero or several files produce the
unsupported-count error as the expression value.  A bitmap payload creates a
temp png, decodes and saves the image, and runs the OCR command with the
argument order of main.rs 363-372; a launch failure exits early via `?`, while
a non-zero exit or invalid-UTF-8 stdout fall through as expression values. -/
def processStep (original_content : ClipboardContent) (args : Args) (env : Env) :
    StepOut × List Event :=
  match original_content with
  | .FileList files =>
    match files with
    | [file0] =>
      let file_path := file0
      let fext := extensionLower file_path
      if AUDIO_EXTENSIONS.contains fext then
        transcriptionCall file_path [] args env
      else if VIDEO_EXTENSIONS.contains fext then
        match env.tempAudioFile with
        | .error m =>
          (.earlyReturn (.context "Failed to create temporary file for extracted audio"
            (.source m)), [])
        | .ok temp_audio_path =>
          let ev0 := Event.createTempFile "extracted_audio_" ".mp3"
          let ev1 := Event.runProcess "ffmpeg" (extractArgs file_path temp_audio_path)
          match env.ffmpegExtract with
          | .launchFailed _ msg =>
            (.earlyReturn (.context
              "Failed to execute ffmpeg command. Is ffmpeg installed and in PATH?"
              (.source msg)), [ev0, ev1])
          | .exited code _ stderrText =>
            if code ≠ 0 then
              (.earlyReturn (.ffmpegExtractFailed code stderrText), [ev0, ev1])
            else
              transcriptionCall temp_audio_path [ev0, ev1] args env
      else
        (.earlyReturn (.unsupportedFileType fext), [])
    | _ =>
      (.result (.error (.unsupportedFileCount files.length)), [])
  | .Bitmap _bitmap_data =>
    match env.tempImageFile with
    | .error m =>
      (.earlyReturn (.context "Failed to create temporary file for OCR image"
        (.source m)), [])
    | .ok temp_image_path =>
      let ev0 := Event.createTempFile "clipboard_ocr_" ".png"
      match env.imageDecode with
      | .error m =>
        (.earlyReturn (.context "Failed to decode clipboard image data"
          (.source m)), [ev0])
      | .ok _ =>
        match env.imageSave with
        | .error m =>
          (.earlyReturn (.context
            ("Failed to save temporary PNG image to " ++ temp_image_path)
            (.source m)), [ev0])
        | .ok _ =>
          let ev1 := Event.runProcess args.tesseract_cmd
            (tesseractCliArgs temp_image_path args)
          match env.tesseract with
          | .launchFailed _ msg =>
            (.earlyReturn (.context
              ("Failed to execute Tesseract command: " ++ args.tesseract_cmd)
              (.source msg)), [ev0, ev1])
          | .exited code stdout stderrText =>
            if code ≠ 0 then
              (.result (.error (.tesseractFailed code stderrText)), [ev0, ev1])
            else
              match from_utf8 stdout with
              | none =>
                (.result (.error (.context "Tesseract output was not valid UTF-8"
                  .invalidUtf8)), [ev0, ev1])
              | some s => (.result (.ok s), [ev0, ev1])

/-- main.rs 226-435, `process_clipboard_and_paste`: the processing step followed
by the result-handling block of main.rs 396-433.  An early function exit skips
that block entirely.  A successful result is trimmed; an empty trim restores
and succeeds; a non-empty trim writes the trimmed text to the clipboard, pastes,
then restores, each `?` exiting without restore on failure.  An error result
attempts the restore, logging its failure, and propagates the original error. -/
def process_clipboard_and_paste (original_content : ClipboardContent)
    (args : Args) (env : Env) : Except Err Unit × List Event :=
  match processStep original_content args env with
  | (.earlyReturn e, evs) => (.error e, evs)
  | (.result (.ok processed_text), evs) =>
    let trimmed_text := rustTrim processed_text
    if trimmed_text = "" then
      let evR := Event.restoreClip original_content
      match restore_clipboard original_content env with
      | .error e =>
        (.error (.context
          "Failed to restore original clipboard content after empty result" e),
         evs ++ [evR])
      | .ok _ => (.ok (), evs ++ [evR])
    else
      let evW := Event.writeClipText trimmed_text
      match set_clipboard_string_helper trimmed_text env with
      | .error e =>
        (.error (.context "Failed to place processed text onto clipboard" e),
         evs ++ [evW])
      | .ok _ =>
        let evP := Event.pasteSim
        match send_ctrl_v env with
        | .error m => (.error (.simulateCtrlVError m), evs ++ [evW, evP])
        | .ok _ =>
          let evR := Event.restoreClip original_content
          match restore_clipboard original_content env with
          | .error e =>
            (.error (.context "Failed to restore original content to clipboard" e),
             evs ++ [evW, evP, evR])
          | .ok _ => (.ok (), evs ++ [evW, evP, evR])
  | (.result (.error e), evs) =>
    let evR := Event.restoreClip original_content
    (.error e, evs ++ [evR])

/-- Event classifiers used by the stated properties. -/
def Event.isProc : Event → Bool
  | .runProcess _ _ => true
  | _ => false

def Event.isNet : Event → Bool
  | .networkTranscribe _ => true
  | _ => false

def Event.isRestoreEv : Event → Bool
  | .restoreClip _ => true
  | _ => false

def Event.isWriteTextEv : Event → Bool
  | .writeClipText _ => true
  | _ => false

def Event.isPasteEv : Event → Bool
  | .pasteSim => true
  | _ => false

/-- An ffmpeg extraction call is recognisable by the fixed flag sequence of
main.rs 269-277; a conversion call by that of transcribe.rs 40-59.  The two
flag sequences differ, so no invocation is both. -/
def Event.isExtractionProc : Event → Bool
  | .runProcess c ["-i", _, "-vn", "-q:a", "0", "-y", _] => c = "ffmpeg"
  | _ => false

def Event.isConversionProc : Event → Bool
  | .runProcess c
      ["-i", _, "-vn", "-ar", "44100", "-ac", "2", "-b:a", "192k", "-f", "mp3", _] =>
    c = "ffmpeg"
  | _ => false

/-- An event of the processing phase (temp resources, subprocesses, network). -/
def Event.isProcessingEv : Event → Bool
  | .createTempFile _ _ => true
  | .createTempDir => true
  | .runProcess _ _ => true
  | .networkTranscribe _ => true
  | _ => false

/-- A fully healthy environment, used to instantiate closed statements. -/
def envOk : Env where
  tempAudioFile := .ok "/tmp/extracted_audio_1.mp3"
  tempImageFile := .ok "/tmp/clipboard_ocr_1.png"
  tempDir := .ok "/tmp/td"
  sysTimeMillis := .ok 111
  pid := 42
  ffmpegExtract := .exited 0 [] ""
  ffmpegConvert := .exited 0 [] ""
  fileSize := fun _ => .ok 1000
  openai := .ok "hello"
  imageDecode := .ok ()
  imageSave := .ok ()
  tesseract := .exited 0 [104, 105] ""
  clipOpenForSet := .ok ()
  clipSetText := .ok ()
  ctrlV := .ok ()
  clipOpenForRestore := .ok ()
  clipWriteRestore := .ok ()

/-- Arguments with a configured credential. -/
def argsOk : Args where
  lang := "eng"
  tesseract_cmd := "tesseract"
  tessdata_path := none
  tesseract_args := []
  openai_api_key := some "sk-test"

/-- Helper: the video allow-list shares no extension with the audio allow-list. -/
theorem video_not_audio (s : String) (h : VIDEO_EXTENSIONS.contains s = true) :
    AUDIO_EXTENSIONS.contains s = false := by
  have hs : s ∈ VIDEO_EXTENSIONS := by simpa using h
  fin_cases hs <;> decide

/-- Helper: an extension on the audio allow-list is never the empty default, so in
particular the allow-lists only ever match a real extension. -/
theorem audio_mem_ne_empty (s : String) (h : AUDIO_EXTENSIONS.contains s = true) :
    s ≠ "" := by
  have hs : s ∈ AUDIO_EXTENSIONS := by simpa using h
  fin_cases hs <;> decide

/-- Helper: everything `ensure_mp3` does externally is a conversion invocation of
the input, and there is at most one of them. -/
theorem ensure_mp3_trace_shape (input tmp : Path) (env : Env) :
    (ensure_mp3 input tmp env).2 = [] ∨
    ∃ out, (ensure_mp3 input tmp env).2 =
      [Event.runProcess "ffmpeg" (convArgs input out)] := by
  by_cases hm : extensionLower input = "mp3"
  · left
    simp [ensure_mp3, hm]
  · rcases ht : env.sysTimeMillis with m | ts
    · left
      simp [ensure_mp3, hm, ht]
    · rcases hc : env.ffmpegConvert with ⟨kind, msg⟩ | ⟨code, out, serr⟩
      · right
        rcases kind <;> simp [ensure_mp3, hm, ht, hc]
      · right
        by_cases h0 : code = 0 <;> simp [ensure_mp3, hm, ht, hc, h0]

/-- Helper: a conversion invocation is a processing event, not an extraction, a
network call, a clipboard write, a paste, or a restore. -/
theorem convCall_classify (input out : Path) :
    (Event.runProcess "ffmpeg" (convArgs input out)).isProcessingEv = true ∧
    (Event.runProcess "ffmpeg" (convArgs input out)).isExtractionProc = false ∧
    (Event.runProcess "ffmpeg" (convArgs input out)).isNet = false ∧
    (Event.runProcess "ffmpeg" (convArgs input out)).isWriteTextEv = false ∧
    (Event.runProcess "ffmpeg" (convArgs input out)).isPasteEv = false ∧
    (Event.runProcess "ffmpeg" (convArgs input out)).isRestoreEv = false := by
  simp [convArgs, Event.isProcessingEv, Event.isExtractionProc, Event.isNet,
    Event.isWriteTextEv, Event.isPasteEv, Event.isRestoreEv]

/-- A clipboard-phase event: text write, paste simulation, or restore. -/
def Event.isClipEv (e : Event) : Bool :=
  e.isWriteTextEv || e.isPasteEv || e.isRestoreEv

/-- Helper: unfolding `transcribe` when the temp dir is created and `ensure_mp3`
succeeds. -/
theorem transcribe_eq_ok (input : Path) (env : Env) (d : Path)
    (hd : env.tempDir = Except.ok d) (p : Path) (evs : List Event)
    (he : ensure_mp3 input d env = (Except.ok p, evs)) :
    transcribe input env =
      match env.fileSize p with
      | .error m =>
        (.error (.context "Failed to get metadata for audio file" (.source m)),
         .createTempDir :: evs)
      | .ok len =>
        if len > 25 * 1024 * 1024 then
          (.error (.fileTooLarge len), .createTempDir :: evs)
        else if len = 0 then
          (.error .fileEmpty, .createTempDir :: evs)
        else
          match env.openai with
          | .error m =>
            (.error (.context "OpenAI API request for transcription failed"
              (.source m)),
             .createTempDir :: evs ++ [.networkTranscribe p])
          | .ok text =>
            (.ok text, .createTempDir :: evs ++ [.networkTranscribe p]) := by
  simp only [transcribe, hd, he]

/-- Helper: unfolding `transcribe` when the temp dir is created and `ensure_mp3`
fails. -/
theorem transcribe_eq_err (input : Path) (env : Env) (d : Path)
    (hd : env.tempDir = Except.ok d) (e : Err) (evs : List Event)
    (he : ensure_mp3 input d env = (Except.error e, evs)) :
    transcribe input env =
      (.error (.context "Failed to prepare MP3 file for transcription" e),
       .createTempDir :: evs) := by
  simp only [transcribe, hd, he]

/-- Helper: the transcription backend performs no clipboard-phase action and no
extraction invocation; its only subprocess use is mp3 conversion. -/
theorem transcribe_trace_tame (input : Path) (env : Env) :
    ((transcribe input env).2).all
      (fun e => !e.isClipEv && !e.isExtractionProc) = true := by
  rcases hd : env.tempDir with m | d
  · simp [transcribe, hd]
  · rcases he : ensure_mp3 input d env with ⟨r, evs⟩
    have hevs : evs.all (fun e => !e.isClipEv && !e.isExtractionProc) = true := by
      have hshape := ensure_mp3_trace_shape input d env
      rw [he] at hshape
      rcases hshape with h | ⟨out, h⟩ <;>
        · simp only at h
          subst h
          simp [Event.isClipEv, Event.isExtractionProc, Event.isWriteTextEv,
            Event.isPasteEv, Event.isRestoreEv, convArgs]
    rcases r with e | p
    · rw [transcribe_eq_err input env d hd e evs he]
      simp only [List.all_cons, Bool.and_eq_true]
      exact ⟨⟨rfl, rfl⟩, hevs⟩
    · rw [transcribe_eq_ok input env d hd p evs he]
      rcases hs : env.fileSize p with m | n
      · simp only [List.all_cons, Bool.and_eq_true]
        exact ⟨⟨rfl, rfl⟩, hevs⟩
      · simp only
        by_cases hbig : n > 25 * 1024 * 1024
        · rw [if_pos hbig]
          simp only [List.all_cons, Bool.and_eq_true]
          exact ⟨⟨rfl, rfl⟩, hevs⟩
        · rw [if_neg hbig]
          by_cases h0 : n = 0
          · rw [if_pos h0]
            simp only [List.all_cons, Bool.and_eq_true]
            exact ⟨⟨rfl, rfl⟩, hevs⟩
          · rw [if_neg h0]
            rcases ho : env.openai with m | text <;>
              · simp only [List.all_append, List.all_cons, List.all_nil,
                  Bool.and_eq_true, Bool.and_true]
                exact ⟨⟨⟨rfl, rfl⟩, hevs⟩, rfl, rfl⟩

/-- Helper: a network request is only ever issued for a file whose size the guard
has read and found non-zero and at most 25 MiB. -/
theorem transcribe_net_bounds (input : Path) (env : Env) (p : Path)
    (h : Event.networkTranscribe p ∈ (transcribe input env).2) :
    ∃ n, env.fileSize p = Except.ok n ∧ 0 < n ∧ n ≤ 25 * 1024 * 1024 := by
  rcases hd : env.tempDir with m | d
  · simp [transcribe, hd] at h
  · rcases he : ensure_mp3 input d env with ⟨r, evs⟩
    have hnotin : Event.networkTranscribe p ∉ evs := by
      have hshape := ensure_mp3_trace_shape input d env
      rw [he] at hshape
      rcases hshape with hsh | ⟨out, hsh⟩ <;>
        · simp only at hsh
          subst hsh
          simp
    rcases r with e | q
    · rw [transcribe_eq_err input env d hd e evs he] at h
      simp only [List.mem_cons] at h
      rcases h with h | h
      · exact absurd h (by simp)
      · exact absurd h hnotin
    · rw [transcribe_eq_ok input env d hd q evs he] at h
      rcases hs : env.fileSize q with m | n <;> rw [hs] at h
      · simp only [List.mem_cons] at h
        rcases h with h | h
        · exact absurd h (by simp)
        · exact absurd h hnotin
      · simp only at h
        by_cases hbig : n > 25 * 1024 * 1024
        · rw [if_pos hbig] at h
          simp only [List.mem_cons] at h
          rcases h with h | h
          · exact absurd h (by simp)
          · exact absurd h hnotin
        · rw [if_neg hbig] at h
          by_cases h0 : n = 0
          · rw [if_pos h0] at h
            simp only [List.mem_cons] at h
            rcases h with h | h
            · exact absurd h (by simp)
            · exact absurd h hnotin
          · rw [if_neg h0] at h
            have hpq : p = q := by
              rcases ho : env.openai with m | text <;> rw [ho] at h <;>
                · simp only [List.mem_append, List.mem_cons,
                    List.not_mem_nil, or_false] at h
                  rcases h with (h | h) | h
                  · exact absurd h (by simp)
                  · exact absurd h hnotin
                  · injection h
            subst hpq
            exact ⟨n, hs, by omega, by omega⟩

/-- Helper: a conjunction under `List.all` entails its left component. -/
theorem all_weaken {α : Type} {l : List α} {p q : α → Bool}
    (h : l.all (fun e => p e && q e) = true) : l.all p = true := by
  simp only [List.all_eq_true, Bool.and_eq_true] at h ⊢
  exact fun e he => (h e he).1

/-- Helper: the processing step performs no clipboard-phase action (text write,
paste simulation, restore); those only ever happen in the result-handling block. -/
theorem processStep_no_clip (o : ClipboardContent) (args : Args) (env : Env) :
    ((processStep o args env).2).all (fun e => !e.isClipEv) = true := by
  have htr : ∀ p evs0, evs0.all (fun e => !e.isClipEv) = true →
      ((transcriptionCall p evs0 args env).2).all (fun e => !e.isClipEv) = true := by
    intro p evs0 h0
    rcases hk : args.openai_api_key with _ | k
    · simpa [transcriptionCall, hk] using h0
    · rcases ht : transcribe p env with ⟨r, evs⟩
      have htame := transcribe_trace_tame p env
      rw [ht] at htame
      have h1 : evs.all (fun e => !e.isClipEv) = true := all_weaken htame
      rcases r with e | t <;> simp [transcriptionCall, hk, ht, List.all_append, h0, h1]
  cases o with
  | Bitmap data =>
    rcases hti : env.tempImageFile with m | ip
    · simp [processStep, hti]
    · rcases hdec : env.imageDecode with m | u
      · simp [processStep, hti, hdec, Event.isClipEv, Event.isWriteTextEv,
          Event.isPasteEv, Event.isRestoreEv]
      · rcases hsv : env.imageSave with m | u
        · simp [processStep, hti, hdec, hsv, Event.isClipEv, Event.isWriteTextEv,
            Event.isPasteEv, Event.isRestoreEv]
        · rcases hts : env.tesseract with ⟨kind, msg⟩ | ⟨code, out, serr⟩
          · simp [processStep, hti, hdec, hsv, hts, Event.isClipEv,
              Event.isWriteTextEv, Event.isPasteEv, Event.isRestoreEv]
          · by_cases h0 : code = 0
            · rcases hu : from_utf8 out with _ | s <;>
                simp [processStep, hti, hdec, hsv, hts, h0, hu, Event.isClipEv,
                  Event.isWriteTextEv, Event.isPasteEv, Event.isRestoreEv]
            · simp [processStep, hti, hdec, hsv, hts, h0, Event.isClipEv,
                Event.isWriteTextEv, Event.isPasteEv, Event.isRestoreEv]
  | FileList files =>
    rcases files with _ | ⟨f, _ | ⟨g, rest⟩⟩
    · simp [processStep]
    · by_cases haud : extensionLower f ∈ AUDIO_EXTENSIONS
      · have := htr f [] (by simp)
        simpa [processStep, haud] using this
      · by_cases hvid : extensionLower f ∈ VIDEO_EXTENSIONS
        · rcases hta : env.tempAudioFile with m | tp
          · simp [processStep, haud, hvid, hta]
          · rcases hex : env.ffmpegExtract with ⟨kind, msg⟩ | ⟨code, out, serr⟩
            · simp [processStep, haud, hvid, hta, hex, Event.isClipEv,
                Event.isWriteTextEv, Event.isPasteEv, Event.isRestoreEv]
            · by_cases h0 : code = 0
              · have := htr tp [Event.createTempFile "extracted_audio_" ".mp3",
                  Event.runProcess "ffmpeg" (extractArgs f tp)] (by
                    simp [Event.isClipEv, Event.isWriteTextEv, Event.isPasteEv,
                      Event.isRestoreEv])
                simpa [processStep, haud, hvid, hta, hex, h0] using this
              · simp [processStep, haud, hvid, hta, hex, h0, Event.isClipEv,
                  Event.isWriteTextEv, Event.isPasteEv, Event.isRestoreEv]
        · simp [processStep, haud, hvid]
    · simp [processStep]

/-- Helper: a conjunction under `List.all` entails its right component. -/
theorem all_weaken_right {α : Type} {l : List α} {p q : α → Bool}
    (h : l.all (fun e => p e && q e) = true) : l.all q = true := by
  simp only [List.all_eq_true, Bool.and_eq_true] at h ⊢
  exact fun e he => (h e he).2

/-- Helper: a conversion invocation satisfies the conversion classifier. -/
theorem isConvProc_conv (f out : Path) :
    (Event.runProcess "ffmpeg" (convArgs f out)).isConversionProc = true := rfl

theorem isConvProc_ctd : Event.createTempDir.isConversionProc = false := rfl

theorem isConvProc_net (p : Path) :
    (Event.networkTranscribe p).isConversionProc = false := rfl

/-- Helper: an extraction invocation satisfies the extraction classifier, and a
conversion invocation does not. -/
theorem isExtrProc_extr (f out : Path) :
    (Event.runProcess "ffmpeg" (extractArgs f out)).isExtractionProc = true := rfl

theorem isExtrProc_conv (f out : Path) :
    (Event.runProcess "ffmpeg" (convArgs f out)).isExtractionProc = false := rfl

/-- Helper: a clipboard-phase event is not a subprocess launch, an extraction,
a conversion, or a network request. -/
theorem clipEv_classify (e : Event) (h : e.isClipEv = true) :
    e.isProc = false ∧ e.isExtractionProc = false ∧
    e.isConversionProc = false ∧ e.isNet = false := by
  cases e with
  | writeClipText s => exact ⟨rfl, rfl, rfl, rfl⟩
  | pasteSim => exact ⟨rfl, rfl, rfl, rfl⟩
  | restoreClip c => exact ⟨rfl, rfl, rfl, rfl⟩
  | createTempFile a b => exact absurd h (by simp [Event.isClipEv,
      Event.isWriteTextEv, Event.isPasteEv, Event.isRestoreEv])
  | createTempDir => exact absurd h (by simp [Event.isClipEv,
      Event.isWriteTextEv, Event.isPasteEv, Event.isRestoreEv])
  | runProcess c as => exact absurd h (by simp [Event.isClipEv,
      Event.isWriteTextEv, Event.isPasteEv, Event.isRestoreEv])
  | networkTranscribe p => exact absurd h (by simp [Event.isClipEv,
      Event.isWriteTextEv, Event.isPasteEv, Event.isRestoreEv])

/-- Helper: the full cycle trace is the processing trace followed by a suffix of
clipboard-phase events only. -/
theorem pipeline_trace_split (o : ClipboardContent) (args : Args) (env : Env) :
    ∃ suffix, (process_clipboard_and_paste o args env).2 =
      (processStep o args env).2 ++ suffix ∧
      suffix.all (fun e => e.isClipEv) = true := by
  rcases hps : processStep o args env with ⟨r, evs⟩
  rcases r with e | r
  · exact ⟨[], by simp [process_clipboard_and_paste, hps], by simp⟩
  · rcases r with e | t
    · exact ⟨[Event.restoreClip o],
        by simp [process_clipboard_and_paste, hps],
        by simp [Event.isClipEv, Event.isRestoreEv]⟩
    · by_cases htrim : rustTrim t = ""
      · rcases hr : restore_clipboard o env with e | u <;>
          exact ⟨[Event.restoreClip o],
            by simp [process_clipboard_and_paste, hps, htrim, hr],
            by simp [Event.isClipEv, Event.isRestoreEv]⟩
      · rcases hw : set_clipboard_string_helper (rustTrim t) env with e | u
        · exact ⟨[Event.writeClipText (rustTrim t)],
            by simp [process_clipboard_and_paste, hps, htrim, hw],
            by simp [Event.isClipEv, Event.isWriteTextEv]⟩
        · rcases hv : send_ctrl_v env with m | u
          · exact ⟨[Event.writeClipText (rustTrim t), Event.pasteSim],
              by simp [process_clipboard_and_paste, hps, htrim, hw, hv],
              by simp [Event.isClipEv, Event.isWriteTextEv, Event.isPasteEv]⟩
          · rcases hr : restore_clipboard o env with e | u <;>
              exact ⟨[Event.writeClipText (rustTrim t), Event.pasteSim,
                  Event.restoreClip o],
                by simp [process_clipboard_and_paste, hps, htrim, hw, hv, hr],
                by simp [Event.isClipEv, Event.isWriteTextEv, Event.isPasteEv,
                  Event.isRestoreEv]⟩

/-- Helper: an `all` property of the transcription trace lifts through the
credential check of `transcriptionCall`. -/
theorem transcriptionCall_trace_all (P : Event → Bool) (p : Path)
    (evs0 : List Event) (args : Args) (env : Env) (h0 : evs0.all P = true)
    (h1 : ((transcribe p env).2).all P = true) :
    ((transcriptionCall p evs0 args env).2).all P = true := by
  rcases hk : args.openai_api_key with _ | k
  · simpa [transcriptionCall, hk] using h0
  · rcases ht : transcribe p env with ⟨r, evs⟩
    rw [ht] at h1
    rcases r with e | t <;> simp [transcriptionCall, hk, ht, List.all_append, h0, h1]

/-- Helper: for a non-mp3 input the conversion invocation is the one external
action of `ensure_mp3`, whatever the conversion's outcome. -/
theorem ensure_mp3_nonmp3_trace (f d : Path) (env : Env) (ts : Nat)
    (hmp3 : extensionLower f ≠ "mp3") (hts : env.sysTimeMillis = Except.ok ts) :
    (ensure_mp3 f d env).2 =
      [Event.runProcess "ffmpeg" (convArgs f (mp3OutPath d env.pid ts))] := by
  rcases hc : env.ffmpegConvert with ⟨kind, msg⟩ | ⟨code, out, serr⟩
  · rcases kind <;> simp [ensure_mp3, hmp3, hts, hc]
  · by_cases h0 : code = 0 <;> simp [ensure_mp3, hmp3, hts, hc, h0]

/-- Helper: transcribing a file already named `.mp3` launches no subprocess at
all. -/
theorem transcribe_mp3_no_proc (f : Path) (env : Env)
    (hmp3 : extensionLower f = "mp3") :
    ((transcribe f env).2.all fun e => !e.isProc) = true := by
  rcases hd : env.tempDir with m | d
  · simp [transcribe, hd]
  · have hem : ensure_mp3 f d env = (Except.ok f, []) := by simp [ensure_mp3, hmp3]
    rw [transcribe_eq_ok f env d hd f [] hem]
    rcases hs : env.fileSize f with m | n
    · simp [Event.isProc]
    · simp only
      by_cases hbig : n > 25 * 1024 * 1024
      · rw [if_pos hbig]
        simp [Event.isProc]
      · rw [if_neg hbig]
        by_cases h0 : n = 0
        · rw [if_pos h0]
          simp [Event.isProc]
        · rw [if_neg h0]
          rcases ho : env.openai with m | text <;> simp [Event.isProc, Event.isNet]

/-- Helper: transcribing a non-mp3 file, with the temp dir created and the clock
read, always launches the conversion subprocess. -/
theorem transcribe_nonmp3_has_conv (f : Path) (env : Env) (d : Path) (ts : Nat)
    (hmp3 : extensionLower f ≠ "mp3") (hd : env.tempDir = Except.ok d)
    (hts : env.sysTimeMillis = Except.ok ts) :
    ((transcribe f env).2.any fun e => e.isConversionProc) = true := by
  have hev := ensure_mp3_nonmp3_trace f d env ts hmp3 hts
  rcases he : ensure_mp3 f d env with ⟨r, evs⟩
  rw [he] at hev
  simp only at hev
  subst hev
  rcases r with e | p
  · rw [transcribe_eq_err f env d hd e _ he]
    simp [isConvProc_conv, isConvProc_ctd]
  · rw [transcribe_eq_ok f env d hd p _ he]
    rcases hs : env.fileSize p with m | n
    · simp [isConvProc_conv, isConvProc_ctd]
    · simp only
      by_cases hbig : n > 25 * 1024 * 1024
      · rw [if_pos hbig]
        simp [isConvProc_conv, isConvProc_ctd]
      · rw [if_neg hbig]
        by_cases h0 : n = 0
        · rw [if_pos h0]
          simp [isConvProc_conv, isConvProc_ctd]
        · rw [if_neg h0]
          rcases ho : env.openai with m | text <;>
            simp [isConvProc_conv, isConvProc_ctd, isConvProc_net]

/-- Helper: on a single video-extension file with the temp file created, the
processing trace begins with the temp-file creation and the extraction launch. -/
theorem processStep_video_starts_extract (f : Path) (args : Args) (env : Env)
    (tp : Path) (haud : extensionLower f ∉ AUDIO_EXTENSIONS)
    (hvid : extensionLower f ∈ VIDEO_EXTENSIONS)
    (hta : env.tempAudioFile = Except.ok tp) :
    ∃ rest0, (processStep (.FileList [f]) args env).2 =
      Event.createTempFile "extracted_audio_" ".mp3" ::
      Event.runProcess "ffmpeg" (extractArgs f tp) :: rest0 := by
  rcases hex : env.ffmpegExtract with ⟨kind, msg⟩ | ⟨code, out, serr⟩
  · exact ⟨[], by simp [processStep, haud, hvid, hta, hex]⟩
  · by_cases h0 : code = 0
    · rcases hk : args.openai_api_key with _ | k
      · exact ⟨[], by simp [processStep, haud, hvid, hta, hex, h0,
          transcriptionCall, hk]⟩
      · rcases ht : transcribe tp env with ⟨r, evs⟩
        rcases r with e | t <;>
          exact ⟨evs, by simp [processStep, haud, hvid, hta, hex, h0,
            transcriptionCall, hk, ht]⟩
    · exact ⟨[], by simp [processStep, haud, hvid, hta, hex, h0]⟩

/-- An environment in which the ffmpeg binary is absent from PATH, so launching
it fails with a NotFound io error. -/
def envNoFfmpeg : Env :=
  { envOk with ffmpegExtract := .launchFailed .notFound "program not found" }

/-- Arguments with no transcription credential configured. -/
def argsNoKey : Args := { argsOk with openai_api_key := none }

/-- C1.  The claim states that on every exit path of the processing-and-paste
step the original payload is written back before the cycle ends, the only
exception being a failing restore write.  The code violates this: when the
extraction tool is missing (the spec's own scenario: a single video file on the
clipboard, ffmpeg absent from PATH), the `?` on the launch error exits
`process_clipboard_and_paste` before the result-handling block, so no restore
is ever attempted — the trace ends at the failed launch with no
restore event, while the cycle ends in the launch error. -/
theorem C1_restore_skipped_on_early_return :
    (process_clipboard_and_paste (.FileList ["C:\\a.mp4"]) argsOk envNoFfmpeg).1 =
      .error (.context
        "Failed to execute ffmpeg command. Is ffmpeg installed and in PATH?"
        (.source "program not found")) ∧
    (process_clipboard_and_paste (.FileList ["C:\\a.mp4"]) argsOk envNoFfmpeg).2 =
      [Event.createTempFile "extracted_audio_" ".mp3",
       Event.runProcess "ffmpeg"
         (extractArgs "C:\\a.mp4" "/tmp/extracted_audio_1.mp3")] ∧
    ((process_clipboard_and_paste (.FileList ["C:\\a.mp4"]) argsOk
        envNoFfmpeg).2.all fun e => !e.isRestoreEv) = true := by
  decide

/-- C2 (counterexample).  The claim states that with no credential configured a
CredentialMissing error is raised before any subprocess runs.  On a single video
file the code runs the ffmpeg extraction subprocess first and only then checks
the credential: with no key configured the cycle still performs a subprocess
launch before failing with the missing-key error. -/
theorem C2_counterexample_video_runs_ffmpeg_without_key :
    (process_clipboard_and_paste (.FileList ["a.mp4"]) argsNoKey envOk).1 =
      .error .apiKeyMissing ∧
    ((process_clipboard_and_paste (.FileList ["a.mp4"]) argsNoKey envOk).2.any
      fun e => e.isProc) = true := by
  decide

/-- C2 (amended).  With no credential configured: a single file with an
audio-list extension fails with the missing-key error before any external
action at all (empty trace); a single file with a video-list extension first
creates the temp file and runs the ffmpeg extraction subprocess, and only
then — before any transcription subprocess or network work — fails with the
missing-key error. -/
theorem C2_amended_credential_check_after_extraction :
    (∀ (f : Path) (args : Args) (env : Env),
      extensionLower f ∈ AUDIO_EXTENSIONS → args.openai_api_key = none →
      process_clipboard_and_paste (.FileList [f]) args env =
        (.error .apiKeyMissing, [])) ∧
    (∀ (f : Path) (args : Args) (env : Env) (tp : Path) (out : List Nat)
      (serr : String),
      extensionLower f ∈ VIDEO_EXTENSIONS → args.openai_api_key = none →
      env.tempAudioFile = Except.ok tp →
      env.ffmpegExtract = ExecOutcome.exited 0 out serr →
      process_clipboard_and_paste (.FileList [f]) args env =
        (.error .apiKeyMissing,
         [Event.createTempFile "extracted_audio_" ".mp3",
          Event.runProcess "ffmpeg" (extractArgs f tp)])) := by
  constructor
  · intro f args env haud hk
    simp [process_clipboard_and_paste, processStep, transcriptionCall, haud, hk]
  · intro f args env tp out serr hvid hk hta hex
    have haud : extensionLower f ∉ AUDIO_EXTENSIONS := by
      intro hmem
      have h1 : AUDIO_EXTENSIONS.contains (extensionLower f) = true := by
        simpa using hmem
      have h2 := video_not_audio (extensionLower f) (by simpa using hvid)
      rw [h2] at h1
      exact Bool.false_ne_true h1
    simp [process_clipboard_and_paste, processStep, transcriptionCall, haud,
      hvid, hk, hta, hex]

/-- Witness for C2 (amended), at a wav file and an mp4 file. -/
theorem C2_amended_witness :
    process_clipboard_and_paste (.FileList ["a.wav"]) argsNoKey envOk =
      (.error .apiKeyMissing, []) ∧
    process_clipboard_and_paste (.FileList ["a.mp4"]) argsNoKey envOk =
      (.error .apiKeyMissing,
       [Event.createTempFile "extracted_audio_" ".mp3",
        Event.runProcess "ffmpeg"
          (extractArgs "a.mp4" "/tmp/extracted_audio_1.mp3")]) :=
  ⟨C2_amended_credential_check_after_extraction.1 "a.wav" argsNoKey envOk
     (by decide) rfl,
   C2_amended_credential_check_after_extraction.2 "a.mp4" argsNoKey envOk
     "/tmp/extracted_audio_1.mp3" [] "" (by decide) rfl rfl rfl⟩

/-- C5.  A FileReferences payload with zero entries or at least two entries
always ends the cycle in the unsupported-file-count error, and the only
external action of the whole cycle is the restore of the original payload: no
temp file, no subprocess, no network call, no text write, no paste. -/
theorem C5_single_file_only (files : List String) (args : Args) (env : Env)
    (h : files.length ≠ 1) :
    process_clipboard_and_paste (.FileList files) args env =
      (.error (.unsupportedFileCount files.length),
       [Event.restoreClip (.FileList files)]) := by
  rcases files with _ | ⟨f, _ | ⟨g, rest⟩⟩
  · simp [process_clipboard_and_paste, processStep]
  · exact absurd (rfl : ([f].length : Nat) = 1) h
  · simp [process_clipboard_and_paste, processStep]

/-- Witness for C5, at an empty list and a two-file list. -/
theorem C5_witness :
    process_clipboard_and_paste (.FileList ["C:\\a.wav", "C:\\b.wav"]) argsOk
        envOk =
      (.error (.unsupportedFileCount 2),
       [Event.restoreClip (.FileList ["C:\\a.wav", "C:\\b.wav"])]) ∧
    process_clipboard_and_paste (.FileList []) argsOk envOk =
      (.error (.unsupportedFileCount 0),
       [Event.restoreClip (.FileList [])]) :=
  ⟨C5_single_file_only ["C:\\a.wav", "C:\\b.wav"] argsOk envOk (by decide),
   C5_single_file_only [] argsOk envOk (by decide)⟩

/-- C3 (counterexample).  The claim states that a file with an audio allow-list
extension never has the external conversion tool invoked for it.  For a `.wav`
file (on the audio allow-list) the cycle does invoke ffmpeg: the transcription
backend's `ensure_mp3` converts every non-mp3 audio file before uploading. -/
theorem C3_counterexample_wav_invokes_conversion :
    extensionLower "a.wav" ∈ AUDIO_EXTENSIONS ∧
    ((process_clipboard_and_paste (.FileList ["a.wav"]) argsOk envOk).2.any
      fun e => e.isConversionProc) = true := by
  decide

/-- C3 (amended).  Extension routing, as the code implements it: an mp3 file is
transcribed with no subprocess launch at all; an audio-list file never triggers
the extraction invocation (it goes straight to the transcription backend), but a
non-mp3 audio-list file does trigger the conversion invocation inside that
backend; a video-list file performs the audio extraction first, before anything
else; any other extension fails with the unsupported-file-type error carrying
the lowercased extension, with an empty trace. -/
theorem C3_amended_extension_routing :
    (∀ (f : Path) (args : Args) (env : Env),
      extensionLower f = "mp3" →
      ((process_clipboard_and_paste (.FileList [f]) args env).2.all
        fun e => !e.isProc) = true) ∧
    (∀ (f : Path) (args : Args) (env : Env),
      extensionLower f ∈ AUDIO_EXTENSIONS →
      ((process_clipboard_and_paste (.FileList [f]) args env).2.all
        fun e => !e.isExtractionProc) = true) ∧
    (∀ (f : Path) (args : Args) (env : Env) (k : String) (d : Path) (ts : Nat),
      extensionLower f ∈ AUDIO_EXTENSIONS → extensionLower f ≠ "mp3" →
      args.openai_api_key = some k → env.tempDir = Except.ok d →
      env.sysTimeMillis = Except.ok ts →
      ((process_clipboard_and_paste (.FileList [f]) args env).2.any
        fun e => e.isConversionProc) = true) ∧
    (∀ (f : Path) (args : Args) (env : Env) (tp : Path),
      extensionLower f ∉ AUDIO_EXTENSIONS → extensionLower f ∈ VIDEO_EXTENSIONS →
      env.tempAudioFile = Except.ok tp →
      ∃ rest, (process_clipboard_and_paste (.FileList [f]) args env).2 =
        Event.createTempFile "extracted_audio_" ".mp3" ::
        Event.runProcess "ffmpeg" (extractArgs f tp) :: rest) ∧
    (∀ (f : Path) (args : Args) (env : Env),
      extensionLower f ∉ AUDIO_EXTENSIONS → extensionLower f ∉ VIDEO_EXTENSIONS →
      process_clipboard_and_paste (.FileList [f]) args env =
        (.error (.unsupportedFileType (extensionLower f)), [])) := by
  refine ⟨?_, ?_, ?_, ?_, ?_⟩
  · intro f args env hmp3
    have haud : extensionLower f ∈ AUDIO_EXTENSIONS := by rw [hmp3]; decide
    obtain ⟨suffix, hsplit, hsuf⟩ := pipeline_trace_split (.FileList [f]) args env
    rw [hsplit, List.all_append]
    have hps : processStep (.FileList [f]) args env =
        transcriptionCall f [] args env := by
      simp [processStep, haud]
    rw [hps]
    simp only [Bool.and_eq_true]
    constructor
    · exact transcriptionCall_trace_all _ f [] args env (by simp)
        (transcribe_mp3_no_proc f env hmp3)
    · simp only [List.all_eq_true] at hsuf ⊢
      intro e he
      have := (clipEv_classify e (hsuf e he)).1
      simp [this]
  · intro f args env haud
    obtain ⟨suffix, hsplit, hsuf⟩ := pipeline_trace_split (.FileList [f]) args env
    rw [hsplit, List.all_append]
    have hps : processStep (.FileList [f]) args env =
        transcriptionCall f [] args env := by
      simp [processStep, haud]
    rw [hps]
    simp only [Bool.and_eq_true]
    constructor
    · exact transcriptionCall_trace_all _ f [] args env (by simp)
        (all_weaken_right (transcribe_trace_tame f env))
    · simp only [List.all_eq_true] at hsuf ⊢
      intro e he
      have := (clipEv_classify e (hsuf e he)).2.1
      simp [this]
  · intro f args env k d ts haud hmp3 hk hd hts
    obtain ⟨suffix, hsplit, hsuf⟩ := pipeline_trace_split (.FileList [f]) args env
    rw [hsplit, List.any_append]
    have hps : processStep (.FileList [f]) args env =
        transcriptionCall f [] args env := by
      simp [processStep, haud]
    rw [hps]
    have hconv := transcribe_nonmp3_has_conv f env d ts hmp3 hd hts
    have hl : ((transcriptionCall f [] args env).2.any
        fun e => e.isConversionProc) = true := by
      rcases ht : transcribe f env with ⟨r, evs⟩
      rw [ht] at hconv
      rcases r with e | t <;> simpa [transcriptionCall, hk, ht] using hconv
    simp [hl]
  · intro f args env tp haud hvid hta
    obtain ⟨suffix, hsplit, hsuf⟩ := pipeline_trace_split (.FileList [f]) args env
    obtain ⟨rest0, hr0⟩ := processStep_video_starts_extract f args env tp haud hvid hta
    exact ⟨rest0 ++ suffix, by rw [hsplit, hr0]; simp⟩
  · intro f args env haud hvid
    simp [process_clipboard_and_paste, processStep, haud, hvid]

/-- Witness for C3 (amended), exercising all five routes. -/
theorem C3_amended_witness :
    ((process_clipboard_and_paste (.FileList ["a.mp3"]) argsOk envOk).2.all
      fun e => !e.isProc) = true ∧
    ((process_clipboard_and_paste (.FileList ["b.wav"]) argsOk envOk).2.all
      fun e => !e.isExtractionProc) = true ∧
    ((process_clipboard_and_paste (.FileList ["b.wav"]) argsOk envOk).2.any
      fun e => e.isConversionProc) = true ∧
    (∃ rest, (process_clipboard_and_paste (.FileList ["c.mp4"]) argsOk envOk).2 =
      Event.createTempFile "extracted_audio_" ".mp3" ::
      Event.runProcess "ffmpeg"
        (extractArgs "c.mp4" "/tmp/extracted_audio_1.mp3") :: rest) ∧
    process_clipboard_and_paste (.FileList ["d.xyz"]) argsOk envOk =
      (.error (.unsupportedFileType "xyz"), []) :=
  ⟨C3_amended_extension_routing.1 "a.mp3" argsOk envOk (by decide),
   C3_amended_extension_routing.2.1 "b.wav" argsOk envOk (by decide),
   C3_amended_extension_routing.2.2.1 "b.wav" argsOk envOk "sk-test" "/tmp/td"
     111 (by decide) (by decide) rfl rfl rfl,
   C3_amended_extension_routing.2.2.2.1 "c.mp4" argsOk envOk
     "/tmp/extracted_audio_1.mp3" (by decide) (by decide) rfl,
   C3_amended_extension_routing.2.2.2.2 "d.xyz" argsOk envOk (by decide)
     (by decide)⟩

/-- An environment in which the original wav file is larger than 25 MiB but its
converted mp3 is small. -/
def envBigWav : Env :=
  { envOk with fileSize := fun p =>
      if p = "a.wav" then Except.ok (25 * 1024 * 1024 + 1) else Except.ok 1000 }

/-- An environment in which every file has the given size. -/
def envSize (n : Nat) : Env :=
  { envOk with fileSize := fun _ => Except.ok n }

/-- C4 (counterexample).  The claim states that every audio file handed to the
transcription step whose size exceeds 25 MiB is rejected locally with no network
call.  The size guard reads the post-conversion mp3, not the handed file: here
the handed wav is 25 MiB + 1 byte, its converted mp3 is 1000 bytes, and the
transcription succeeds with a network request issued. -/
theorem C4_counterexample_oversized_input_reaches_network :
    envBigWav.fileSize "a.wav" = Except.ok (25 * 1024 * 1024 + 1) ∧
    (transcribe "a.wav" envBigWav).1 = .ok "hello" ∧
    ((transcribe "a.wav" envBigWav).2.any fun e => e.isNet) = true := by
  decide

/-- C4 (amended).  The 25 MiB and emptiness bounds of the transcription step
apply to the file actually uploaded: any file for which a network request is
issued has a read size n with 0 < n and n ≤ 25 MiB; and for an mp3 input (where
the uploaded file is the handed file itself) a size of exactly 25 MiB + 1 is
rejected as too large with no network call, a size of 0 is rejected as empty
with no network call, and a size of exactly 25 MiB reaches the network
request. -/
theorem C4_amended_size_guard_on_uploaded_file :
    (∀ (input : Path) (env : Env) (p : Path),
      Event.networkTranscribe p ∈ (transcribe input env).2 →
      ∃ n, env.fileSize p = Except.ok n ∧ 0 < n ∧ n ≤ 25 * 1024 * 1024) ∧
    (∀ (input : Path) (env : Env) (d : Path),
      extensionLower input = "mp3" → env.tempDir = Except.ok d →
      (env.fileSize input = Except.ok (25 * 1024 * 1024 + 1) →
        transcribe input env =
          (.error (.fileTooLarge (25 * 1024 * 1024 + 1)),
           [Event.createTempDir])) ∧
      (env.fileSize input = Except.ok 0 →
        transcribe input env = (.error .fileEmpty, [Event.createTempDir])) ∧
      (env.fileSize input = Except.ok (25 * 1024 * 1024) →
        (transcribe input env).2 =
          [Event.createTempDir, Event.networkTranscribe input])) := by
  constructor
  · exact fun input env p h => transcribe_net_bounds input env p h
  · intro input env d hmp3 hd
    have hem : ensure_mp3 input d env = (Except.ok input, []) := by
      simp [ensure_mp3, hmp3]
    have ht := transcribe_eq_ok input env d hd input [] hem
    refine ⟨?_, ?_, ?_⟩ <;> intro hs <;> rw [ht, hs]
    · simp
    · simp
    · rcases ho : env.openai with m | text <;> simp [ho]

/-- Witness for C4 (amended): the network-request bound at a concrete healthy
run, and the three boundary sizes for an mp3 input. -/
theorem C4_amended_witness :
    (∃ n, (envSize 1000).fileSize "a.mp3" = Except.ok n ∧ 0 < n ∧
      n ≤ 25 * 1024 * 1024) ∧
    transcribe "a.mp3" (envSize (25 * 1024 * 1024 + 1)) =
      (.error (.fileTooLarge (25 * 1024 * 1024 + 1)), [Event.createTempDir]) ∧
    transcribe "a.mp3" (envSize 0) = (.error .fileEmpty, [Event.createTempDir]) ∧
    (transcribe "a.mp3" (envSize (25 * 1024 * 1024))).2 =
      [Event.createTempDir, Event.networkTranscribe "a.mp3"] :=
  ⟨C4_amended_size_guard_on_uploaded_file.1 "a.mp3" (envSize 1000) "a.mp3"
     (by decide),
   (C4_amended_size_guard_on_uploaded_file.2 "a.mp3"
     (envSize (25 * 1024 * 1024 + 1)) "/tmp/td" (by decide) rfl).1 rfl,
   (C4_amended_size_guard_on_uploaded_file.2 "a.mp3" (envSize 0) "/tmp/td"
     (by decide) rfl).2.1 rfl,
   (C4_amended_size_guard_on_uploaded_file.2 "a.mp3"
     (envSize (25 * 1024 * 1024)) "/tmp/td" (by decide) rfl).2.2 rfl⟩

/-- C6.  Whenever the processing step falls through with a successful text whose
whitespace-trim is empty, and the restore write succeeds, the cycle performs no
clipboard text-write and no paste simulation (neither during processing nor
after), attempts exactly one restore of the original payload, and ends as a
non-error outcome. -/
theorem C6_empty_result_skips_paste (o : ClipboardContent) (args : Args)
    (env : Env) (t : String) (evs : List Event)
    (hps : processStep o args env = (.result (.ok t), evs))
    (htrim : rustTrim t = "")
    (hopen : env.clipOpenForRestore = Except.ok ())
    (hwrite : env.clipWriteRestore = Except.ok ()) :
    process_clipboard_and_paste o args env =
      (.ok (), evs ++ [Event.restoreClip o]) ∧
    (evs.all fun e => !e.isWriteTextEv && !e.isPasteEv) = true := by
  constructor
  · have hr : restore_clipboard o env = .ok () := by
      cases o <;> simp [restore_clipboard, hopen, hwrite]
    simp [process_clipboard_and_paste, hps, htrim, hr]
  · have hnc := processStep_no_clip o args env
    rw [hps] at hnc
    simp only [List.all_eq_true] at hnc ⊢
    intro e he
    have h1 := hnc e he
    simp only [Event.isClipEv, Bool.not_eq_true', Bool.or_eq_false_iff] at h1
    simp [h1.1.1, h1.1.2]

/-- An environment whose OCR run emits only whitespace. -/
def envWs : Env := { envOk with tesseract := .exited 0 [32, 10] "" }

/-- Witness for C6: a bitmap whose OCR output is the two whitespace bytes
space and newline. -/
theorem C6_witness :
    processStep (.Bitmap [1, 2]) argsOk envWs =
      (.result (.ok " \n"),
       [Event.createTempFile "clipboard_ocr_" ".png",
        Event.runProcess "tesseract"
          (tesseractCliArgs "/tmp/clipboard_ocr_1.png" argsOk)]) ∧
    rustTrim " \n" = "" ∧
    (process_clipboard_and_paste (.Bitmap [1, 2]) argsOk envWs =
      (.ok (), [Event.createTempFile "clipboard_ocr_" ".png",
        Event.runProcess "tesseract"
          (tesseractCliArgs "/tmp/clipboard_ocr_1.png" argsOk)] ++
        [Event.restoreClip (.Bitmap [1, 2])]) ∧
     ([Event.createTempFile "clipboard_ocr_" ".png",
       Event.runProcess "tesseract"
         (tesseractCliArgs "/tmp/clipboard_ocr_1.png" argsOk)].all
       fun e => !e.isWriteTextEv && !e.isPasteEv) = true) :=
  ⟨by decide, by decide,
   C6_empty_result_skips_paste (.Bitmap [1, 2]) argsOk envWs " \n"
     [Event.createTempFile "clipboard_ocr_" ".png",
      Event.runProcess "tesseract"
        (tesseractCliArgs "/tmp/clipboard_ocr_1.png" argsOk)]
     (by decide) (by decide) rfl rfl⟩

/-- C9.  Whenever the processing step falls through with a successful text whose
trim is non-empty and every clipboard-phase interaction succeeds, the string
written to the clipboard and pasted is the whitespace-trimmed text (the write,
the paste and then the restore of the original payload follow the processing
trace in that order), and no other clipboard text-write carrying anything but
the trimmed text occurs anywhere in the cycle. -/
theorem C9_pasted_text_is_trimmed (o : ClipboardContent) (args : Args)
    (env : Env) (t : String) (evs : List Event)
    (hps : processStep o args env = (.result (.ok t), evs))
    (htrim : rustTrim t ≠ "")
    (hopen : env.clipOpenForSet = Except.ok ())
    (hset : env.clipSetText = Except.ok ())
    (hv : env.ctrlV = Except.ok ())
    (hro : env.clipOpenForRestore = Except.ok ())
    (hrw : env.clipWriteRestore = Except.ok ()) :
    process_clipboard_and_paste o args env =
      (.ok (), evs ++ [Event.writeClipText (rustTrim t), Event.pasteSim,
        Event.restoreClip o]) ∧
    (∀ s, Event.writeClipText s ∈
      evs ++ [Event.writeClipText (rustTrim t), Event.pasteSim,
        Event.restoreClip o] → s = rustTrim t) := by
  have hw : set_clipboard_string_helper (rustTrim t) env = .ok () := by
    simp [set_clipboard_string_helper, hopen, hset]
  have hr : restore_clipboard o env = .ok () := by
    cases o <;> simp [restore_clipboard, hro, hrw]
  constructor
  · simp [process_clipboard_and_paste, hps, htrim, hw, send_ctrl_v, hv, hr]
  · intro s hmem
    have hnc := processStep_no_clip o args env
    rw [hps] at hnc
    simp only [List.mem_append, List.mem_cons, List.not_mem_nil, or_false]
      at hmem
    rcases hmem with hmem | hmem | hmem | hmem
    · exfalso
      simp only [List.all_eq_true] at hnc
      have := hnc _ hmem
      simp [Event.isClipEv, Event.isWriteTextEv] at this
    · injection hmem
    · exact absurd hmem (by simp)
    · exact absurd hmem (by simp)

/-- An environment whose OCR run emits text padded with whitespace. -/
def envPad : Env := { envOk with tesseract := .exited 0 [32, 104, 105, 32, 10] "" }

/-- Witness for C9: OCR output is the five bytes of the text
space-h-i-space-newline, and the pasted string is its trim. -/
theorem C9_witness :
    processStep (.Bitmap [1, 2]) argsOk envPad =
      (.result (.ok " hi \n"),
       [Event.createTempFile "clipboard_ocr_" ".png",
        Event.runProcess "tesseract"
          (tesseractCliArgs "/tmp/clipboard_ocr_1.png" argsOk)]) ∧
    rustTrim " hi \n" = "hi" ∧
    process_clipboard_and_paste (.Bitmap [1, 2]) argsOk envPad =
      (.ok (), [Event.createTempFile "clipboard_ocr_" ".png",
        Event.runProcess "tesseract"
          (tesseractCliArgs "/tmp/clipboard_ocr_1.png" argsOk)] ++
        [Event.writeClipText (rustTrim " hi \n"), Event.pasteSim,
         Event.restoreClip (.Bitmap [1, 2])]) :=
  ⟨by decide, by decide,
   (C9_pasted_text_is_trimmed (.Bitmap [1, 2]) argsOk envPad " hi \n"
     [Event.createTempFile "clipboard_ocr_" ".png",
      Event.runProcess "tesseract"
        (tesseractCliArgs "/tmp/clipboard_ocr_1.png" argsOk)]
     (by decide) (by decide) rfl rfl rfl rfl rfl).1⟩

/-- C7.  On an image payload (with the temp file created and the image decoded
and saved), the OCR process is invoked exactly once, with the arguments in this
order: the input-file path, the literal `stdout`, `-l` then the configured
language, `--tessdata-dir` then the directory only when one is configured, then
the passthrough extra arguments in their given order.  Exit code 0 makes the
stdout bytes (strictly decoded as UTF-8) the processing result, invalid UTF-8
stdout is an error rather than a silent replacement, and a non-zero exit is an
error carrying the captured stderr. -/
theorem C7_tesseract_invocation_contract (data : List Nat) (args : Args)
    (env : Env) (p : Path) (hti : env.tempImageFile = Except.ok p)
    (hdec : env.imageDecode = Except.ok ())
    (hsv : env.imageSave = Except.ok ()) :
    (processStep (.Bitmap data) args env).2 =
      [Event.createTempFile "clipboard_ocr_" ".png",
       Event.runProcess args.tesseract_cmd
         ([p, "stdout", "-l", args.lang] ++
          (match args.tessdata_path with
           | some tessdata => ["--tessdata-dir", tessdata]
           | none => []) ++
          args.tesseract_args)] ∧
    (∀ out serr s, env.tesseract = ExecOutcome.exited 0 out serr →
      from_utf8 out = some s →
      (processStep (.Bitmap data) args env).1 = .result (.ok s)) ∧
    (∀ out serr, env.tesseract = ExecOutcome.exited 0 out serr →
      from_utf8 out = none →
      (processStep (.Bitmap data) args env).1 =
        .result (.error (.context "Tesseract output was not valid UTF-8"
          .invalidUtf8))) ∧
    (∀ code out serr, env.tesseract = ExecOutcome.exited code out serr →
      code ≠ 0 →
      (processStep (.Bitmap data) args env).1 =
        .result (.error (.tesseractFailed code serr))) := by
  refine ⟨?_, ?_, ?_, ?_⟩
  · rcases hts : env.tesseract with ⟨kind, msg⟩ | ⟨code, out, serr⟩
    · simp [processStep, hti, hdec, hsv, hts, tesseractCliArgs]
    · by_cases h0 : code = 0
      · rcases hu : from_utf8 out with _ | s <;>
          simp [processStep, hti, hdec, hsv, hts, h0, hu, tesseractCliArgs]
      · simp [processStep, hti, hdec, hsv, hts, h0, tesseractCliArgs]
  · intro out serr s hts hu
    simp [processStep, hti, hdec, hsv, hts, hu]
  · intro out serr hts hu
    simp [processStep, hti, hdec, hsv, hts, hu]
  · intro code out serr hts h0
    simp [processStep, hti, hdec, hsv, hts, h0]

/-- Arguments with a tessdata directory and extra passthrough arguments. -/
def argsTess : Args :=
  { argsOk with tessdata_path := some "/td", tesseract_args := ["--psm", "6"] }

/-- An environment whose OCR run emits invalid UTF-8 (a lone 0xFF byte). -/
def envUtf8Bad : Env := { envOk with tesseract := .exited 0 [255] "" }

/-- An environment whose OCR run exits non-zero with captured stderr. -/
def envTessFail : Env := { envOk with tesseract := .exited 1 [] "boom" }

/-- Witness for C7: the exact argument vector with tessdata and extra args, the
UTF-8 success, the invalid-UTF-8 error, and the non-zero-exit error. -/
theorem C7_witness :
    (processStep (.Bitmap [1, 2]) argsTess envOk).2 =
      [Event.createTempFile "clipboard_ocr_" ".png",
       Event.runProcess "tesseract"
         (["/tmp/clipboard_ocr_1.png", "stdout", "-l", "eng"] ++
          ["--tessdata-dir", "/td"] ++ ["--psm", "6"])] ∧
    (processStep (.Bitmap [1, 2]) argsOk envOk).1 = .result (.ok "hi") ∧
    (processStep (.Bitmap [1, 2]) argsOk envUtf8Bad).1 =
      .result (.error (.context "Tesseract output was not valid UTF-8"
        .invalidUtf8)) ∧
    (processStep (.Bitmap [1, 2]) argsOk envTessFail).1 =
      .result (.error (.tesseractFailed 1 "boom")) :=
  ⟨(C7_tesseract_invocation_contract [1, 2] argsTess envOk
      "/tmp/clipboard_ocr_1.png" rfl rfl rfl).1,
   (C7_tesseract_invocation_contract [1, 2] argsOk envOk
      "/tmp/clipboard_ocr_1.png" rfl rfl rfl).2.1 [104, 105] "" "hi" rfl
      (by decide),
   (C7_tesseract_invocation_contract [1, 2] argsOk envUtf8Bad
      "/tmp/clipboard_ocr_1.png" rfl rfl rfl).2.2.1 [255] "" rfl (by decide),
   (C7_tesseract_invocation_contract [1, 2] argsOk envTessFail
      "/tmp/clipboard_ocr_1.png" rfl rfl rfl).2.2.2 1 [] "boom" rfl
      (by decide)⟩

/-- An environment whose extraction launch fails with a NotFound io error. -/
def envExtrNotFound : Env :=
  { envOk with ffmpegExtract := .launchFailed .notFound "boom" }

/-- An environment whose extraction launch fails with a non-NotFound io error
carrying the same message. -/
def envExtrIoErr : Env :=
  { envOk with ffmpegExtract := .launchFailed .otherErr "boom" }

/-- C8 (counterexample).  The claim states that for both conversion and
extraction, a not-found launch failure is reported as a tool-missing error
distinct from a generic I/O failure.  For the extraction invocation, the code
(main.rs 277-280) wraps any launch error in the same context without inspecting
its kind: a NotFound failure and a generic I/O failure with the same underlying
message produce the identical reported error (and identical whole cycle), so
no distinct tool-missing classification exists on that path. -/
theorem C8_counterexample_extraction_not_distinct :
    process_clipboard_and_paste (.FileList ["v.mp4"]) argsOk envExtrNotFound =
      process_clipboard_and_paste (.FileList ["v.mp4"]) argsOk envExtrIoErr ∧
    (process_clipboard_and_paste (.FileList ["v.mp4"]) argsOk
        envExtrNotFound).1 =
      .error (.context
        "Failed to execute ffmpeg command. Is ffmpeg installed and in PATH?"
        (.source "boom")) := by
  decide

/-- C8 (amended).  In the mp3 normalization step (`ensure_mp3`) the taxonomy is
as claimed: a NotFound launch gives the dedicated tool-missing error, any other
launch failure gives the generic execute error carrying the io message, and a
non-zero exit gives the conversion-failed error carrying the captured stderr —
three pairwise distinct errors.  In the video extraction step only the non-zero
exit is distinct (carrying stderr); a launch failure is reported with one
io-message-wrapping context regardless of whether its kind was NotFound. -/
theorem C8_amended_launch_failure_taxonomy :
    (∀ (input tmp : Path) (env : Env) (m : String) (ts : Nat),
      extensionLower input ≠ "mp3" → env.sysTimeMillis = Except.ok ts →
      (env.ffmpegConvert = ExecOutcome.launchFailed .notFound m →
        (ensure_mp3 input tmp env).1 = .error .ffmpegNotFound) ∧
      (env.ffmpegConvert = ExecOutcome.launchFailed .otherErr m →
        (ensure_mp3 input tmp env).1 = .error (.ffmpegExecError m)) ∧
      (∀ code out serr, env.ffmpegConvert = ExecOutcome.exited code out serr →
        code ≠ 0 →
        (ensure_mp3 input tmp env).1 =
          .error (.ffmpegConvertFailed code serr))) ∧
    (∀ (m serr : String) (code : Nat),
      Err.ffmpegNotFound ≠ Err.ffmpegExecError m ∧
      Err.ffmpegNotFound ≠ Err.ffmpegConvertFailed code serr ∧
      Err.ffmpegExecError m ≠ Err.ffmpegConvertFailed code serr) ∧
    (∀ (f : Path) (args : Args) (env : Env) (tp : Path) (kind : IoKind)
      (m : String),
      extensionLower f ∉ AUDIO_EXTENSIONS → extensionLower f ∈ VIDEO_EXTENSIONS →
      env.tempAudioFile = Except.ok tp →
      env.ffmpegExtract = ExecOutcome.launchFailed kind m →
      (process_clipboard_and_paste (.FileList [f]) args env).1 =
        .error (.context
          "Failed to execute ffmpeg command. Is ffmpeg installed and in PATH?"
          (.source m))) ∧
    (∀ (f : Path) (args : Args) (env : Env) (tp : Path) (code : Nat)
      (out : List Nat) (serr : String),
      extensionLower f ∉ AUDIO_EXTENSIONS → extensionLower f ∈ VIDEO_EXTENSIONS →
      env.tempAudioFile = Except.ok tp →
      env.ffmpegExtract = ExecOutcome.exited code out serr → code ≠ 0 →
      (process_clipboard_and_paste (.FileList [f]) args env).1 =
        .error (.ffmpegExtractFailed code serr)) := by
  refine ⟨?_, ?_, ?_, ?_⟩
  · intro input tmp env m ts hmp3 hts
    refine ⟨?_, ?_, ?_⟩
    · intro hc
      simp [ensure_mp3, hmp3, hts, hc]
    · intro hc
      simp [ensure_mp3, hmp3, hts, hc]
    · intro code out serr hc h0
      simp [ensure_mp3, hmp3, hts, hc, h0]
  · intro m serr code
    refine ⟨by simp, by simp, by simp⟩
  · intro f args env tp kind m haud hvid hta hex
    simp [process_clipboard_and_paste, processStep, haud, hvid, hta, hex]
  · intro f args env tp code out serr haud hvid hta hex h0
    simp [process_clipboard_and_paste, processStep, haud, hvid, hta, hex, h0]

/-- Witness for C8 (amended): the three conversion outcomes on a wav input, the
pairwise distinctness at concrete payloads, and the two extraction outcomes. -/
theorem C8_amended_witness :
    (ensure_mp3 "a.wav" "/tmp/td"
      { envOk with ffmpegConvert := .launchFailed .notFound "m1" }).1 =
        .error .ffmpegNotFound ∧
    (ensure_mp3 "a.wav" "/tmp/td"
      { envOk with ffmpegConvert := .launchFailed .otherErr "m1" }).1 =
        .error (.ffmpegExecError "m1") ∧
    (ensure_mp3 "a.wav" "/tmp/td"
      { envOk with ffmpegConvert := .exited 1 [] "s1" }).1 =
        .error (.ffmpegConvertFailed 1 "s1") ∧
    (Err.ffmpegNotFound ≠ Err.ffmpegExecError "m1" ∧
     Err.ffmpegNotFound ≠ Err.ffmpegConvertFailed 1 "s1" ∧
     Err.ffmpegExecError "m1" ≠ Err.ffmpegConvertFailed 1 "s1") ∧
    (process_clipboard_and_paste (.FileList ["v.mp4"]) argsOk
        envExtrNotFound).1 =
      .error (.context
        "Failed to execute ffmpeg command. Is ffmpeg installed and in PATH?"
        (.source "boom")) ∧
    (process_clipboard_and_paste (.FileList ["v.mp4"]) argsOk
        { envOk with ffmpegExtract := .exited 1 [] "s2" }).1 =
      .error (.ffmpegExtractFailed 1 "s2") :=
  ⟨(C8_amended_launch_failure_taxonomy.1 "a.wav" "/tmp/td"
      { envOk with ffmpegConvert := .launchFailed .notFound "m1" } "m1" 111
      (by decide) rfl).1 rfl,
   (C8_amended_launch_failure_taxonomy.1 "a.wav" "/tmp/td"
      { envOk with ffmpegConvert := .launchFailed .otherErr "m1" } "m1" 111
      (by decide) rfl).2.1 rfl,
   (C8_amended_launch_failure_taxonomy.1 "a.wav" "/tmp/td"
      { envOk with ffmpegConvert := .exited 1 [] "s1" } "m1" 111
      (by decide) rfl).2.2 1 [] "s1" rfl (by decide),
   C8_amended_launch_failure_taxonomy.2.1 "m1" "s1" 1,
   C8_amended_launch_failure_taxonomy.2.2.1 "v.mp4" argsOk envExtrNotFound
     "/tmp/extracted_audio_1.mp3" .notFound "boom" (by decide) (by decide)
     rfl rfl,
   C8_amended_launch_failure_taxonomy.2.2.2 "v.mp4" argsOk
     { envOk with ffmpegExtract := .exited 1 [] "s2" }
     "/tmp/extracted_audio_1.mp3" 1 [] "s2" (by decide) (by decide) rfl rfl
     (by decide)⟩

/-- C10.  The transcription step's 25 MiB and emptiness checks read the file
that will actually be uploaded: for a non-mp3 input the conversion subprocess
runs before any size check (a failing conversion is reported with no size check
ever consulted), and an input of any size — in particular larger than 25 MiB —
is accepted and reaches the network whenever its converted mp3 has size n with
0 < n ≤ 25 MiB; the converted mp3 itself is rejected as too large or empty by
those same checks; for an mp3 input the original file is the one checked and
uploaded, with no conversion invocation. -/
theorem C10_size_checks_read_converted_file :
    (∀ (input : Path) (env : Env) (d : Path) (ts : Nat) (out : List Nat)
      (serr : String) (n bigSize : Nat),
      extensionLower input ≠ "mp3" → env.tempDir = Except.ok d →
      env.sysTimeMillis = Except.ok ts →
      env.ffmpegConvert = ExecOutcome.exited 0 out serr →
      env.fileSize input = Except.ok bigSize → 25 * 1024 * 1024 < bigSize →
      env.fileSize (mp3OutPath d env.pid ts) = Except.ok n → 0 < n →
      n ≤ 25 * 1024 * 1024 →
      (transcribe input env).2 =
        [Event.createTempDir,
         Event.runProcess "ffmpeg" (convArgs input (mp3OutPath d env.pid ts)),
         Event.networkTranscribe (mp3OutPath d env.pid ts)] ∧
      (transcribe input env).1 = (match env.openai with
        | .error m => .error (.context
            "OpenAI API request for transcription failed" (.source m))
        | .ok text => .ok text)) ∧
    (∀ (input : Path) (env : Env) (d : Path) (ts : Nat) (code : Nat)
      (out : List Nat) (serr : String),
      extensionLower input ≠ "mp3" → env.tempDir = Except.ok d →
      env.sysTimeMillis = Except.ok ts →
      env.ffmpegConvert = ExecOutcome.exited code out serr → code ≠ 0 →
      transcribe input env =
        (.error (.context "Failed to prepare MP3 file for transcription"
          (.ffmpegConvertFailed code serr)),
         [Event.createTempDir,
          Event.runProcess "ffmpeg"
            (convArgs input (mp3OutPath d env.pid ts))])) ∧
    (∀ (input : Path) (env : Env) (d : Path) (n : Nat),
      extensionLower input = "mp3" → env.tempDir = Except.ok d →
      env.fileSize input = Except.ok n → 0 < n → n ≤ 25 * 1024 * 1024 →
      (transcribe input env).2 =
        [Event.createTempDir, Event.networkTranscribe input]) ∧
    (∀ (input : Path) (env : Env) (d : Path) (ts : Nat) (out : List Nat)
      (serr : String) (n : Nat),
      extensionLower input ≠ "mp3" → env.tempDir = Except.ok d →
      env.sysTimeMillis = Except.ok ts →
      env.ffmpegConvert = ExecOutcome.exited 0 out serr →
      env.fileSize (mp3OutPath d env.pid ts) = Except.ok n →
      25 * 1024 * 1024 < n →
      transcribe input env =
        (.error (.fileTooLarge n),
         [Event.createTempDir,
          Event.runProcess "ffmpeg"
            (convArgs input (mp3OutPath d env.pid ts))])) ∧
    (∀ (input : Path) (env : Env) (d : Path) (ts : Nat) (out : List Nat)
      (serr : String),
      extensionLower input ≠ "mp3" → env.tempDir = Except.ok d →
      env.sysTimeMillis = Except.ok ts →
      env.ffmpegConvert = ExecOutcome.exited 0 out serr →
      env.fileSize (mp3OutPath d env.pid ts) = Except.ok 0 →
      transcribe input env =
        (.error .fileEmpty,
         [Event.createTempDir,
          Event.runProcess "ffmpeg"
            (convArgs input (mp3OutPath d env.pid ts))])) := by
  refine ⟨?_, ?_, ?_, ?_, ?_⟩
  · intro input env d ts out serr n bigSize hmp3 hd hts hconv hszin hbigin hn
      hpos hle
    have hem : ensure_mp3 input d env =
        (.ok (mp3OutPath d env.pid ts),
         [Event.runProcess "ffmpeg"
           (convArgs input (mp3OutPath d env.pid ts))]) := by
      simp [ensure_mp3, hmp3, hts, hconv]
    have ht := transcribe_eq_ok input env d hd _ _ hem
    constructor
    · rw [ht, hn]
      dsimp only
      rw [if_neg (by omega), if_neg (by omega)]
      rcases ho : env.openai with m | text <;> simp [ho]
    · rw [ht, hn]
      dsimp only
      rw [if_neg (by omega), if_neg (by omega)]
      rcases ho : env.openai with m | text <;> simp [ho]
  · intro input env d ts code out serr hmp3 hd hts hconv h0
    have hem : ensure_mp3 input d env =
        (.error (.ffmpegConvertFailed code serr),
         [Event.runProcess "ffmpeg"
           (convArgs input (mp3OutPath d env.pid ts))]) := by
      simp [ensure_mp3, hmp3, hts, hconv, h0]
    rw [transcribe_eq_err input env d hd _ _ hem]
  · intro input env d n hmp3 hd hn hpos hle
    have hem : ensure_mp3 input d env = (.ok input, []) := by
      simp [ensure_mp3, hmp3]
    rw [transcribe_eq_ok input env d hd _ _ hem, hn]
    dsimp only
    rw [if_neg (by omega), if_neg (by omega)]
    rcases ho : env.openai with m | text <;> simp [ho]
  · intro input env d ts out serr n hmp3 hd hts hconv hn hbig
    have hem : ensure_mp3 input d env =
        (.ok (mp3OutPath d env.pid ts),
         [Event.runProcess "ffmpeg"
           (convArgs input (mp3OutPath d env.pid ts))]) := by
      simp [ensure_mp3, hmp3, hts, hconv]
    rw [transcribe_eq_ok input env d hd _ _ hem, hn]
    dsimp only
    rw [if_pos (by omega)]
  · intro input env d ts out serr hmp3 hd hts hconv hn
    have hem : ensure_mp3 input d env =
        (.ok (mp3OutPath d env.pid ts),
         [Event.runProcess "ffmpeg"
           (convArgs input (mp3OutPath d env.pid ts))]) := by
      simp [ensure_mp3, hmp3, hts, hconv]
    rw [transcribe_eq_ok input env d hd _ _ hem, hn]
    dsimp only
    rw [if_neg (by omega), if_pos rfl]

/-- An environment in which the wav input is 30 MiB but its converted mp3 is
1000 bytes. -/
def envC10Big : Env :=
  { envOk with fileSize := fun p =>
      if p = "big.wav" then Except.ok (30 * 1024 * 1024) else Except.ok 1000 }

/-- An environment whose conversion run exits non-zero. -/
def envConvFail : Env := { envOk with ffmpegConvert := .exited 1 [] "bad" }

/-- An environment whose converted mp3 is larger than 25 MiB. -/
def envConvBig : Env :=
  { envOk with fileSize := fun p =>
      if p = "/tmp/td/transcribe_temp_42_111.mp3" then
        Except.ok (26 * 1024 * 1024)
      else Except.ok 1000 }

/-- An environment whose converted mp3 is empty. -/
def envConvEmpty : Env :=
  { envOk with fileSize := fun p =>
      if p = "/tmp/td/transcribe_temp_42_111.mp3" then Except.ok 0
      else Except.ok 1000 }

/-- Witness for C10: a 30 MiB wav accepted through its 1000-byte converted mp3;
a failing conversion reported with no size check; the mp3 direct path; the
converted file rejected as too large; the converted file rejected as empty. -/
theorem C10_witness :
    ((transcribe "big.wav" envC10Big).2 =
      [Event.createTempDir,
       Event.runProcess "ffmpeg"
         (convArgs "big.wav" (mp3OutPath "/tmp/td" 42 111)),
       Event.networkTranscribe (mp3OutPath "/tmp/td" 42 111)] ∧
     (transcribe "big.wav" envC10Big).1 = .ok "hello") ∧
    transcribe "x.wav" envConvFail =
      (.error (.context "Failed to prepare MP3 file for transcription"
        (.ffmpegConvertFailed 1 "bad")),
       [Event.createTempDir,
        Event.runProcess "ffmpeg"
          (convArgs "x.wav" (mp3OutPath "/tmp/td" 42 111))]) ∧
    (transcribe "a.mp3" envOk).2 =
      [Event.createTempDir, Event.networkTranscribe "a.mp3"] ∧
    transcribe "c.wav" envConvBig =
      (.error (.fileTooLarge (26 * 1024 * 1024)),
       [Event.createTempDir,
        Event.runProcess "ffmpeg"
          (convArgs "c.wav" (mp3OutPath "/tmp/td" 42 111))]) ∧
    transcribe "c.wav" envConvEmpty =
      (.error .fileEmpty,
       [Event.createTempDir,
        Event.runProcess "ffmpeg"
          (convArgs "c.wav" (mp3OutPath "/tmp/td" 42 111))]) :=
  ⟨C10_size_checks_read_converted_file.1 "big.wav" envC10Big "/tmp/td" 111 []
     "" 1000 (30 * 1024 * 1024) (by decide) rfl rfl rfl (by decide)
     (by decide) (by decide) (by decide) (by decide),
   C10_size_checks_read_converted_file.2.1 "x.wav" envConvFail "/tmp/td" 111 1
     [] "bad" (by decide) rfl rfl rfl (by decide),
   C10_size_checks_read_converted_file.2.2.1 "a.mp3" envOk "/tmp/td" 1000
     (by decide) rfl rfl (by decide) (by decide),
   C10_size_checks_read_converted_file.2.2.2.1 "c.wav" envConvBig "/tmp/td"
     111 [] "" (26 * 1024 * 1024) (by decide) rfl rfl rfl (by decide)
     (by decide),
   C10_size_checks_read_converted_file.2.2.2.2 "c.wav" envConvEmpty "/tmp/td"
     111 [] "" (by decide) rfl rfl rfl (by decide)⟩

end OcrPaste
